import Mathlib

/-!
Shallow embedding of `src/deepfillv2.py` (class `DeepFillV2`, a
pytorch-lightning module for GAN image inpainting).

Modelling conventions:
* A torch tensor of shape `[N, C, H, W]` is a function
  `Fin N → Fin C → Fin H → Fin W → ℚ`; real arithmetic is modelled
  exactly over `ℚ`.
* The generator and discriminator networks (`model/InpaintSAGenerator.py`,
  `model/InpaintSADiscriminator.py`, not under `src/`) are abstract
  function parameters of the model state; the discriminator's output
  tensor is flattened to `Fin M → ℚ` (only its mean and elementwise
  hinge terms are ever used).
* `.detach()` leaves the value of a tensor unchanged (it only cuts the
  autograd graph), so it is the identity on values.
* `.cuda()` / `.cpu()` / `.numpy()` are device/representation moves that
  preserve values and are dropped.
* Mutation of `self` is explicit state passing on `ModelState`;
  `training_step` returns the new state together with
  `Except StepError (Option StepOut)`: `Except.error` is a raised Python
  exception, `Option.none` is Python's implicit `return None`.
* The loggers only record: `on_epoch_end` returns the list of image
  grids passed to `logger.log_image` (scalar logging carries no state).
-/

/-- A torch tensor of shape `[N, C, H, W]` with exact rational entries. -/
def Tensor (N C H W : ℕ) : Type := Fin N → Fin C → Fin H → Fin W → ℚ

/-- Elementwise addition of same-shaped tensors (`a + b`). -/
def tadd {N C H W : ℕ} (a b : Tensor N C H W) : Tensor N C H W :=
  fun n c h w => a n c h w + b n c h w

/-- Multiplication `a * m` where `m` has a single channel that torch
broadcasts across the `C` channels of `a` (shape `[N,1,H,W]` against
`[N,C,H,W]`). -/
def bmul {N C H W : ℕ} (a : Tensor N C H W) (m : Tensor N 1 H W) : Tensor N C H W :=
  fun n c h w => a n c h w * m n 0 h w

/-- Addition `a + m` with the single-channel tensor `m` broadcast across
the channels of `a`. -/
def badd {N C H W : ℕ} (a : Tensor N C H W) (m : Tensor N 1 H W) : Tensor N C H W :=
  fun n c h w => a n c h w + m n 0 h w

/-- The tensor `1 - m` (scalar minus tensor, elementwise). -/
def oneSub {N C H W : ℕ} (m : Tensor N C H W) : Tensor N C H W :=
  fun n c h w => 1 - m n c h w

/-- Concatenation of two tensors along `dim=1` (the channel dimension),
`torch.cat((a, b), dim=1)`. -/
def catChannel {N C₁ C₂ H W : ℕ} (a : Tensor N C₁ H W) (b : Tensor N C₂ H W) :
    Tensor N (C₁ + C₂) H W :=
  fun n c h w => Fin.addCases (fun i => a n i h w) (fun j => b n j h w) c

/-- Mean of a flattened score vector, `torch.mean` over all elements. -/
def vmean {M : ℕ} (d : Fin M → ℚ) : ℚ := (∑ i, d i) / (M : ℚ)

/-- Mean of a tensor over all of its elements, `torch.mean`. -/
def tmean {N C H W : ℕ} (t : Tensor N C H W) : ℚ :=
  (∑ n, ∑ c, ∑ h, ∑ w, t n c h w) / ((N : ℚ) * (C : ℚ) * (H : ℚ) * (W : ℚ))

/-- Elementwise `torch.nn.functional.relu`. -/
def relu (x : ℚ) : ℚ := max x 0

/-- Value semantics of `Tensor.detach`: the values are unchanged, only
the autograd graph is cut. -/
def detach {N C H W : ℕ} (t : Tensor N C H W) : Tensor N C H W := t

/-- The completed image of lines 56 and 97 of `src/deepfillv2.py`:
`refined_image * mask + image * (1 - mask)`. -/
def completedImage {N C H W : ℕ} (refined image : Tensor N C H W)
    (mask : Tensor N 1 H W) : Tensor N C H W :=
  tadd (bmul refined mask) (bmul image (oneSub mask))

/-- The masked input image of line 100 of `src/deepfillv2.py`:
`batch['image'] * (1 - batch['mask']) + batch['mask']`. -/
def maskedImage {N C H W : ℕ} (image : Tensor N C H W)
    (mask : Tensor N 1 H W) : Tensor N C H W :=
  badd (bmul image (oneSub mask)) mask

/-- Mean L1 distance between `a` and `b` restricted to the region where
the single-channel weight tensor `region` is `1` (elementwise
`|a - b| * region`, averaged over all elements). -/
def maskedL1 {N C H W : ℕ} (a b : Tensor N C H W) (region : Tensor N 1 H W) : ℚ :=
  tmean (fun n c h w => |a n c h w - b n c h w| * region n 0 h w)

/-- Modelled from the spec: the class `ReconstructionLoss` of
`util/loss.py` is not under `src/`. The spec describes it as a
"weighted L1 loss inside/outside the masked region, separately for
coarse and refined outputs", with the four weights `l1_c_h` (coarse,
hole), `l1_c_nh` (coarse, non-hole), `l1_r_h` (refined, hole),
`l1_r_nh` (refined, non-hole) passed at construction on line 20 of
`src/deepfillv2.py`, and called as
`self.recon_loss(image, coarse_image, refined_image, mask)` on line 55. -/
def reconstructionLoss {N C H W : ℕ} (wch wcnh wrh wrnh : ℚ)
    (image coarse refined : Tensor N C H W) (mask : Tensor N 1 H W) : ℚ :=
  wch * maskedL1 coarse image mask
    + wcnh * maskedL1 coarse image (oneSub mask)
    + wrh * maskedL1 refined image mask
    + wrnh * maskedL1 refined image (oneSub mask)

/-- The argument-parsed hyperparameter record (`util/arguments.py` is not
under `src/`; the fields are those `src/deepfillv2.py` reads from
`self.hparams`). -/
structure HParams where
  dataset : String
  input_nc : ℕ
  image_size : ℕ
  batch_size : ℕ
  num_workers : ℕ
  vis_dataset : String
  lr : ℚ
  weight_decay : ℚ
  gen_loss_alpha : ℚ
  disc_loss_alpha : ℚ
  l1_c_h : ℚ
  l1_c_nh : ℚ
  l1_r_h : ℚ
  l1_r_nh : ℚ
deriving DecidableEq

/-- A training batch: `batch['image']` of shape `[N,C,H,W]` and
`batch['mask']` of shape `[N,1,H,W]`. -/
structure Batch (N C H W : ℕ) where
  image : Tensor N C H W
  mask : Tensor N 1 H W

/-- The dictionary returned by `training_step`: the `'loss'` entry and
the `'progress_bar'` sub-dictionary (insertion-ordered key/value
pairs). -/
structure StepOut where
  loss : ℚ
  progress_bar : List (String × ℚ)
deriving DecidableEq

/-- The Python exception a `training_step` call can raise. -/
inductive StepError where
  /-- `AttributeError`: line 72 calls `.detach()` on
  `self.generated_image_only_patch` while it is still `None`. -/
  | noneHasNoDetach
deriving DecidableEq

/-- The mutable state of a `DeepFillV2` instance. `net_G` maps
`(image, mask)` to the pair `(coarse_image, refined_image)`; `net_D`
maps an `[N, C+1, H, W]` input (image concatenated with mask along
`dim=1`) to a flattened score vector; `recon_loss` is the callable
stored in `self.recon_loss`. -/
structure ModelState (N C H W M : ℕ) where
  hparams : HParams
  net_G : Tensor N C H W → Tensor N 1 H W → Tensor N C H W × Tensor N C H W
  net_D : Tensor N (C + 1) H W → Fin M → ℚ
  recon_loss : Tensor N C H W → Tensor N C H W → Tensor N C H W → Tensor N 1 H W → ℚ
  last_batch : Option (Batch N C H W)
  generated_image : Option (Tensor N C H W)
  generated_image_only_patch : Option (Tensor N C H W)
  visualization_dataloader : List (Batch N C H W)

/-- `DeepFillV2.__init__(args)` (lines 15-24). The two networks are the
constructed `InpaintSAGenerator(args.input_nc)` and
`InpaintSADiscriminator(args.input_nc)` (their modules are not under
`src/`), and the visualization dataloader's batches are those the
dataset module (not under `src/`) yields; all are taken as parameters. -/
def DeepFillV2.init {N C H W M : ℕ} (args : HParams)
    (netG : Tensor N C H W → Tensor N 1 H W → Tensor N C H W × Tensor N C H W)
    (netD : Tensor N (C + 1) H W → Fin M → ℚ)
    (visLoader : List (Batch N C H W)) : ModelState N C H W M :=
  { hparams := args
    net_G := netG
    net_D := netD
    recon_loss := reconstructionLoss args.l1_c_h args.l1_c_nh args.l1_r_h args.l1_r_nh
    last_batch := none
    generated_image := none
    generated_image_only_patch := none
    visualization_dataloader := visLoader }

/-- Which parameter set an optimizer is built over. -/
inductive ParamSet where
  /-- `self.net_G.parameters()` -/
  | netG
  /-- `self.net_D.parameters()` -/
  | netD
deriving DecidableEq

/-- A `torch.optim.Adam(params, lr=..., weight_decay=...)` construction. -/
structure AdamSpec where
  params : ParamSet
  lr : ℚ
  weight_decay : ℚ
deriving DecidableEq

/-- `configure_optimizers` (lines 26-31): returns the optimizer list and
the (empty) scheduler list. -/
def configureOptimizers {N C H W M : ℕ} (s : ModelState N C H W M) :
    List AdamSpec × List Unit :=
  let lr := s.hparams.lr
  let decay := s.hparams.weight_decay
  ([{ params := ParamSet.netG, lr := lr, weight_decay := decay },
    { params := ParamSet.netD, lr := 4 * lr, weight_decay := decay }], [])

/-- `training_step(batch, batch_idx, optimizer_idx)` (lines 47-84).
Returns the state after the call together with the raised exception or
the returned value (`none` for Python's implicit `return None` when
`optimizer_idx` is neither `0` nor `1`). -/
def trainingStep {N C H W M : ℕ} (s : ModelState N C H W M)
    (batch : Batch N C H W) (batch_idx optimizer_idx : ℕ) :
    ModelState N C H W M × Except StepError (Option StepOut) :=
  let image := batch.image
  let mask := batch.mask
  let s₁ := { s with last_batch := some batch }
  if optimizer_idx = 0 then
    -- generator training
    let gOut := s₁.net_G image mask
    let coarse_image := gOut.1
    let refined_image := gOut.2
    let s₂ := { s₁ with generated_image := some refined_image }
    let reconstruction_loss := s₂.recon_loss image coarse_image refined_image mask
    let completed_image := completedImage refined_image image mask
    let s₃ := { s₂ with generated_image_only_patch := some completed_image }
    let d_fake := s₃.net_D (catChannel completed_image mask)
    let gen_loss := -s₃.hparams.gen_loss_alpha * vmean d_fake
    let total_loss := gen_loss + reconstruction_loss
    (s₃, Except.ok (some
      { loss := total_loss
        progress_bar := [("gen_loss", gen_loss), ("recon_loss", reconstruction_loss)] }))
  else if optimizer_idx = 1 then
    match s₁.generated_image_only_patch with
    | none => (s₁, Except.error StepError.noneHasNoDetach)
    | some patch =>
      let d_real := s₁.net_D (catChannel image mask)
      let d_fake := s₁.net_D (catChannel (detach patch) mask)
      let real_loss := vmean (fun i => relu (1 - d_real i))
      let fake_loss := vmean (fun i => relu (1 + d_fake i))
      let disc_loss := s₁.hparams.disc_loss_alpha * (real_loss + fake_loss)
      (s₁, Except.ok (some
        { loss := disc_loss
          progress_bar := [("d_real_loss", real_loss), ("d_fake_loss", fake_loss)] }))
  else
    (s₁, Except.ok none)

/-- Truncation of a rational toward zero, the C-style behaviour of
numpy's float-to-integer conversion. -/
def ratTrunc (q : ℚ) : ℤ := if 0 ≤ q then ⌊q⌋ else -⌊-q⌋

/-- Conversion of a rational to `np.uint8` (`astype(np.uint8)`):
truncation toward zero, then wraparound modulo `2^8`. -/
def npUint8 (q : ℚ) : ℕ := (ratTrunc q % (256 : ℤ)).toNat

/-- The per-channel std `(0.229, 0.224, 0.225)` of lines 104-108. -/
def imagenetStd : Fin 3 → ℚ := ![229/1000, 224/1000, 225/1000]

/-- The per-channel mean `(0.485, 0.456, 0.406)` of lines 104-108. -/
def imagenetMean : Fin 3 → ℚ := ![485/1000, 456/1000, 406/1000]

/-- One visualization tile: an `H × W × 3` uint8 array (a CHW sample
after `np.transpose(..., axes=[1, 2, 0])`). -/
def Tile (H W : ℕ) : Type := Fin H → Fin W → Fin 3 → ℕ

/-- The tile built from sample `j` of a CHW tensor on lines 104-108:
transpose to HWC, multiply by the per-channel std, add the per-channel
mean, scale by 255, cast to uint8. -/
def denormTile {N H W : ℕ} (img : Tensor N 3 H W) (j : Fin N) : Tile H W :=
  fun h w c => npUint8 ((img j c h w * imagenetStd c + imagenetMean c) * 255)

/-- One column of the visualization grid: for each batch of the loader,
in order, the denormalized tiles of the samples `j = 0, ..., N-1` of the
tensor `f` computes from the batch; `np.vstack` stacks them in exactly
this order. -/
def tilesOf {N H W : ℕ} (f : Batch N 3 H W → Tensor N 3 H W)
    (loader : List (Batch N 3 H W)) : List (Tile H W) :=
  loader.flatMap (fun b => (List.finRange N).map (fun j => denormTile (f b) j))

/-- `on_epoch_end` (lines 86-110), for 3-channel images (the constant
tuples on lines 104-108 broadcast along a channel axis of size 3).
Returns the state after the call and the list of grids passed to
`self.logger.log_image`, each grid being the `np.hstack` list of
`np.vstack` columns. `.cuda()/.cpu()/.numpy()` moves preserve values and
`torch.no_grad()` does not affect values, so both are dropped. -/
def onEpochEnd {N H W M : ℕ} (s : ModelState N 3 H W M) :
    ModelState N 3 H W M × List (List (List (Tile H W))) :=
  let loader := s.visualization_dataloader
  let masked := tilesOf (fun b => maskedImage b.image b.mask) loader
  let coarse := tilesOf (fun b => (s.net_G b.image b.mask).1) loader
  let refined := tilesOf (fun b => (s.net_G b.image b.mask).2) loader
  let completed := tilesOf
    (fun b => completedImage (s.net_G b.image b.mask).2 b.image b.mask) loader
  let images := tilesOf (fun b => b.image) loader
  (s, [[masked, coarse, refined, completed, images]])

/-- A training-time operation on a `DeepFillV2` instance. -/
inductive TrainOp (N H W : ℕ) where
  /-- a `training_step(batch, batch_idx, optimizer_idx)` call -/
  | step (batch : Batch N 3 H W) (batch_idx optimizer_idx : ℕ)
  /-- an `on_epoch_end()` call -/
  | epochEnd
  /-- a `configure_optimizers()` call (it only reads `self.hparams`) -/
  | configOpt

/-- The state after one training-time operation. -/
def applyOp {N H W M : ℕ} (s : ModelState N 3 H W M) : TrainOp N H W → ModelState N 3 H W M
  | TrainOp.step b bi oi => (trainingStep s b bi oi).1
  | TrainOp.epochEnd => (onEpochEnd s).1
  | TrainOp.configOpt => s

/-- Example hyperparameters for concrete witnesses. -/
def exHP : HParams :=
  { dataset := "places", input_nc := 3, image_size := 1, batch_size := 1,
    num_workers := 0, vis_dataset := "vis", lr := 1/10, weight_decay := 0,
    gen_loss_alpha := 2, disc_loss_alpha := 3,
    l1_c_h := 5, l1_c_nh := 6, l1_r_h := 7, l1_r_nh := 8 }

/-- Example constant image tensor (one sample, 3 channels, 1×1). -/
def exImage : Tensor 1 3 1 1 := fun _ _ _ _ => 1/2

/-- Example all-ones mask (the whole image is hole). -/
def exMask1 : Tensor 1 1 1 1 := fun _ _ _ _ => 1

/-- Example all-zeros mask (nothing to inpaint). -/
def exMask0 : Tensor 1 1 1 1 := fun _ _ _ _ => 0

/-- Example generator: coarse output is the input, refined output adds
a constant. -/
def exG : Tensor 1 3 1 1 → Tensor 1 1 1 1 → Tensor 1 3 1 1 × Tensor 1 3 1 1 :=
  fun i _ => (i, fun n c h w => i n c h w + 1)

/-- Example discriminator: both scores read a fixed entry of the input. -/
def exD : Tensor 1 4 1 1 → Fin 2 → ℚ := fun t _ => t 0 0 0 0

/-- Example batch with the all-ones mask. -/
def exBatch : Batch 1 3 1 1 := { image := exImage, mask := exMask1 }

/-- Example batch with the all-zeros mask. -/
def exBatch0 : Batch 1 3 1 1 := { image := exImage, mask := exMask0 }

/-- Example freshly-constructed model state. -/
def exState : ModelState 1 3 1 1 2 := DeepFillV2.init exHP exG exD [exBatch]

/-- A model state that has just run a generator step on `exBatch`. -/
def exStateG : ModelState 1 3 1 1 2 := (trainingStep exState exBatch 0 0).1

/-- Example discriminator that inspects the mask channel of its input:
it agrees with `exD` on every input whose channel 3 is constantly `1`. -/
def exD2 : Tensor 1 4 1 1 → Fin 2 → ℚ :=
  fun t _ => if t 0 3 0 0 = 1 then t 0 0 0 0 else 42

/-- C1: in the generator branch of `training_step` (`optimizer_idx = 0`)
the completed image stored in `generated_image_only_patch` is
`refined_image * mask + image * (1 - mask)`; at every pixel where the
mask is `0` this blend equals the input image, at every pixel where it
is `1` it equals the refined output; and `on_epoch_end` builds its
`completed` column from the same blending formula. -/
theorem generator_step_blend_and_pixel_identity {N C H W M : ℕ}
    (s : ModelState N C H W M) (batch : Batch N C H W) (batch_idx : ℕ) :
    ((trainingStep s batch batch_idx 0).1.generated_image_only_patch =
        some (completedImage (s.net_G batch.image batch.mask).2 batch.image batch.mask))
    ∧ (∀ (refined image : Tensor N C H W) (mask : Tensor N 1 H W)
          (n : Fin N) (c : Fin C) (h : Fin H) (w : Fin W),
        (mask n 0 h w = 0 → completedImage refined image mask n c h w = image n c h w)
        ∧ (mask n 0 h w = 1 → completedImage refined image mask n c h w = refined n c h w))
    ∧ (∀ (N' H' W' M' : ℕ) (s' : ModelState N' 3 H' W' M'),
        ((onEpochEnd s').2.headD []).getD 3 [] =
          tilesOf (fun b => completedImage (s'.net_G b.image b.mask).2 b.image b.mask)
            s'.visualization_dataloader) := by
  refine ⟨rfl, ?_, fun _ _ _ _ _ => rfl⟩
  intro refined image mask n c h w
  constructor <;> intro hm <;>
    simp [completedImage, tadd, bmul, oneSub, hm]

/-- Witness for C1 at a concrete state and batch: with the all-zeros
mask the completed pixel is the input pixel, with the all-ones mask it
is the refined pixel. -/
theorem generator_step_blend_and_pixel_identity_witness :
    (completedImage (exG exImage exMask0).2 exImage exMask0 0 0 0 0 = exImage 0 0 0 0)
    ∧ (completedImage (exG exImage exMask1).2 exImage exMask1 0 0 0 0 =
        (exG exImage exMask1).2 0 0 0 0) :=
  ⟨((generator_step_blend_and_pixel_identity exState exBatch0 0).2.1
      (exG exImage exMask0).2 exImage exMask0 0 0 0 0).1 rfl,
   ((generator_step_blend_and_pixel_identity exState exBatch 0).2.1
      (exG exImage exMask1).2 exImage exMask1 0 0 0 0).2 rfl⟩

/-- C2: the generator branch of `training_step` (`optimizer_idx = 0`)
returns as `'loss'` the sum of the adversarial generator loss
`-gen_loss_alpha * mean(D(cat(completed, mask)))` and the reconstruction
loss `self.recon_loss(image, coarse, refined, mask)`; the progress bar
carries the two summands. (Which branch runs is selected by the
`optimizer_idx` argument; the per-batch alternation of that argument is
driven by the pytorch-lightning trainer, outside this file's source.) -/
theorem generator_step_total_loss {N C H W M : ℕ} (s : ModelState N C H W M)
    (batch : Batch N C H W) (batch_idx : ℕ) :
    (trainingStep s batch batch_idx 0).2 = Except.ok (some
      { loss :=
          -s.hparams.gen_loss_alpha * vmean (s.net_D (catChannel
              (completedImage (s.net_G batch.image batch.mask).2 batch.image batch.mask)
              batch.mask))
            + s.recon_loss batch.image (s.net_G batch.image batch.mask).1
                (s.net_G batch.image batch.mask).2 batch.mask
        progress_bar :=
          [("gen_loss", -s.hparams.gen_loss_alpha * vmean (s.net_D (catChannel
              (completedImage (s.net_G batch.image batch.mask).2 batch.image batch.mask)
              batch.mask))),
           ("recon_loss", s.recon_loss batch.image (s.net_G batch.image batch.mask).1
              (s.net_G batch.image batch.mask).2 batch.mask)] }) := rfl

/-- C9: a `training_step` call with an `optimizer_idx` other than `0`
and `1` falls through both branches: it returns Python's `None`, raises
nothing, and its only state effect is `self.last_batch = batch`. -/
theorem other_optimizer_idx_returns_none {N C H W M : ℕ}
    (s : ModelState N C H W M) (batch : Batch N C H W) (batch_idx oi : ℕ)
    (h0 : oi ≠ 0) (h1 : oi ≠ 1) :
    trainingStep s batch batch_idx oi =
      ({ s with last_batch := some batch }, Except.ok none) := by
  unfold trainingStep
  rw [if_neg h0, if_neg h1]

/-- Witness for C9 at `optimizer_idx = 5`. -/
theorem other_optimizer_idx_returns_none_witness :
    trainingStep exState exBatch 0 5 =
      ({ exState with last_batch := some exBatch }, Except.ok none) :=
  other_optimizer_idx_returns_none exState exBatch 0 5 (by decide) (by decide)

/-- C3: the discriminator branch of `training_step` (`optimizer_idx = 1`)
returns as `'loss'` the hinge loss: `disc_loss_alpha` times the sum of
`mean(relu(1 - D(cat(image, mask))))` on the real branch and
`mean(relu(1 + D(cat(stored_patch.detach(), mask))))` on the fake
branch, provided a completed image is stored. -/
theorem discriminator_step_hinge_loss {N C H W M : ℕ} (s : ModelState N C H W M)
    (batch : Batch N C H W) (batch_idx : ℕ) (g : Tensor N C H W)
    (hg : s.generated_image_only_patch = some g) :
    (trainingStep s batch batch_idx 1).2 = Except.ok (some
      { loss := s.hparams.disc_loss_alpha *
          (vmean (fun i => relu (1 - s.net_D (catChannel batch.image batch.mask) i))
            + vmean (fun i => relu (1 + s.net_D (catChannel (detach g) batch.mask) i)))
        progress_bar :=
          [("d_real_loss",
              vmean (fun i => relu (1 - s.net_D (catChannel batch.image batch.mask) i))),
           ("d_fake_loss",
              vmean (fun i => relu (1 + s.net_D (catChannel (detach g) batch.mask) i)))] }) := by
  unfold trainingStep
  rw [if_neg one_ne_zero, if_pos rfl]
  simp only [hg]

/-- Witness for C3: after a generator step on `exBatch`, the stored
patch is the blend of that step, and the discriminator step returns the
hinge loss at it. -/
theorem discriminator_step_hinge_loss_witness :
    (trainingStep exStateG exBatch 0 1).2 = Except.ok (some
      { loss := exStateG.hparams.disc_loss_alpha *
          (vmean (fun i => relu (1 - exStateG.net_D (catChannel exBatch.image exBatch.mask) i))
            + vmean (fun i => relu (1 + exStateG.net_D (catChannel
                (detach (completedImage (exG exImage exMask1).2 exImage exMask1))
                exBatch.mask) i)))
        progress_bar :=
          [("d_real_loss",
              vmean (fun i => relu (1 - exStateG.net_D (catChannel exBatch.image exBatch.mask) i))),
           ("d_fake_loss",
              vmean (fun i => relu (1 + exStateG.net_D (catChannel
                (detach (completedImage (exG exImage exMask1).2 exImage exMask1))
                exBatch.mask) i)))] }) :=
  discriminator_step_hinge_loss exStateG exBatch 0
    (completedImage (exG exImage exMask1).2 exImage exMask1) rfl

/-- C4: every discriminator invocation in `training_step` is on the
channel-wise concatenation of an image tensor with the batch's mask:
two discriminators that agree on all inputs of the form
`cat(x, mask)` produce the same step result for every `optimizer_idx`,
and `on_epoch_end` never invokes the discriminator at all. -/
theorem discriminator_only_sees_mask_concat {N C H W M : ℕ}
    (s : ModelState N C H W M) (batch : Batch N C H W) (batch_idx oi : ℕ)
    (D₁ D₂ : Tensor N (C + 1) H W → Fin M → ℚ)
    (hD : ∀ x : Tensor N C H W, D₁ (catChannel x batch.mask) = D₂ (catChannel x batch.mask)) :
    ((trainingStep { s with net_D := D₁ } batch batch_idx oi).2 =
        (trainingStep { s with net_D := D₂ } batch batch_idx oi).2)
    ∧ (∀ (N' H' W' M' : ℕ) (s' : ModelState N' 3 H' W' M')
          (E₁ E₂ : Tensor N' 4 H' W' → Fin M' → ℚ),
        (onEpochEnd { s' with net_D := E₁ }).2 = (onEpochEnd { s' with net_D := E₂ }).2) := by
  refine ⟨?_, fun _ _ _ _ _ _ _ => rfl⟩
  unfold trainingStep
  by_cases h0 : oi = 0
  · rw [if_pos h0, if_pos h0]
    simp only [hD]
  · rw [if_neg h0, if_neg h0]
    by_cases h1 : oi = 1
    · rw [if_pos h1, if_pos h1]
      cases s.generated_image_only_patch with
      | none => rfl
      | some patch => simp only [hD]
    · rw [if_neg h1, if_neg h1]

/-- Witness for C4: `exD` and `exD2` differ as functions but agree on
every concatenation with the all-ones mask, so they induce the same
generator-step result. -/
theorem discriminator_only_sees_mask_concat_witness :
    ((trainingStep { exState with net_D := exD } exBatch 0 0).2 =
        (trainingStep { exState with net_D := exD2 } exBatch 0 0).2)
    ∧ ((onEpochEnd { exState with net_D := exD }).2 =
        (onEpochEnd { exState with net_D := exD2 }).2) :=
  ⟨(discriminator_only_sees_mask_concat exState exBatch 0 0 exD exD2 (fun _ => rfl)).1,
   (discriminator_only_sees_mask_concat exState exBatch 0 0 exD exD2 (fun _ => rfl)).2
      1 1 1 2 exState exD exD2⟩

/-- C10: `generated_image_only_patch` is `None` after construction; no
branch other than the generator branch assigns it; the discriminator
branch raises (`None.detach()`) whenever it is still `None`; and run on
the same batch right after a generator step, the discriminator branch's
fake pass sees that step's detached completed image with the batch's
mask. -/
theorem disc_step_requires_prior_generator_step {N C H W M : ℕ} :
    (∀ (args : HParams)
        (netG : Tensor N C H W → Tensor N 1 H W → Tensor N C H W × Tensor N C H W)
        (netD : Tensor N (C + 1) H W → Fin M → ℚ) (loader : List (Batch N C H W)),
        (DeepFillV2.init args netG netD loader).generated_image_only_patch = none)
    ∧ (∀ (s : ModelState N C H W M) (batch : Batch N C H W) (bi oi : ℕ), oi ≠ 0 →
        (trainingStep s batch bi oi).1.generated_image_only_patch =
          s.generated_image_only_patch)
    ∧ (∀ (s : ModelState N C H W M) (batch : Batch N C H W) (bi : ℕ),
        s.generated_image_only_patch = none →
        (trainingStep s batch bi 1).2 = Except.error StepError.noneHasNoDetach)
    ∧ (∀ (s : ModelState N C H W M) (batch : Batch N C H W) (bi bi' : ℕ),
        (trainingStep (trainingStep s batch bi 0).1 batch bi' 1).2 = Except.ok (some
          { loss := s.hparams.disc_loss_alpha *
              (vmean (fun i => relu (1 - s.net_D (catChannel batch.image batch.mask) i))
                + vmean (fun i => relu (1 + s.net_D (catChannel
                    (detach (completedImage (s.net_G batch.image batch.mask).2
                      batch.image batch.mask)) batch.mask) i)))
            progress_bar :=
              [("d_real_loss",
                  vmean (fun i => relu (1 - s.net_D (catChannel batch.image batch.mask) i))),
               ("d_fake_loss",
                  vmean (fun i => relu (1 + s.net_D (catChannel
                    (detach (completedImage (s.net_G batch.image batch.mask).2
                      batch.image batch.mask)) batch.mask) i)))] })) := by
  refine ⟨fun _ _ _ _ => rfl, ?_, ?_, fun s batch bi bi' => rfl⟩
  · intro s batch bi oi h0
    unfold trainingStep
    rw [if_neg h0]
    by_cases h1 : oi = 1
    · rw [if_pos h1]
      cases s.generated_image_only_patch with
      | none => rfl
      | some patch => rfl
    · rw [if_neg h1]
  · intro s batch bi hnone
    unfold trainingStep
    rw [if_neg one_ne_zero, if_pos rfl]
    simp only [hnone]

/-- Witness for C10 at concrete inputs: the fresh state stores no patch,
an `optimizer_idx = 5` step preserves that, the discriminator step on
the fresh state raises, and after a generator step it returns the hinge
loss at the blended image. -/
theorem disc_step_requires_prior_generator_step_witness :
    (exState.generated_image_only_patch = none)
    ∧ ((trainingStep exState exBatch 0 5).1.generated_image_only_patch =
        exState.generated_image_only_patch)
    ∧ ((trainingStep exState exBatch 0 1).2 = Except.error StepError.noneHasNoDetach)
    ∧ ((trainingStep (trainingStep exState exBatch 0 0).1 exBatch 0 1).2 = Except.ok (some
        { loss := exState.hparams.disc_loss_alpha *
            (vmean (fun i => relu (1 - exState.net_D (catChannel exBatch.image exBatch.mask) i))
              + vmean (fun i => relu (1 + exState.net_D (catChannel
                  (detach (completedImage (exState.net_G exBatch.image exBatch.mask).2
                    exBatch.image exBatch.mask)) exBatch.mask) i)))
          progress_bar :=
            [("d_real_loss",
                vmean (fun i => relu (1 - exState.net_D (catChannel exBatch.image exBatch.mask) i))),
             ("d_fake_loss",
                vmean (fun i => relu (1 + exState.net_D (catChannel
                  (detach (completedImage (exState.net_G exBatch.image exBatch.mask).2
                    exBatch.image exBatch.mask)) exBatch.mask) i)))] })) :=
  ⟨disc_step_requires_prior_generator_step.1 exHP exG exD [exBatch],
   disc_step_requires_prior_generator_step.2.1 exState exBatch 0 5 (by decide),
   disc_step_requires_prior_generator_step.2.2.1 exState exBatch 0 rfl,
   disc_step_requires_prior_generator_step.2.2.2 exState exBatch 0 0⟩

/-- Every `training_step` branch leaves `self.hparams` untouched. -/
lemma trainingStep_hparams {N C H W M : ℕ} (s : ModelState N C H W M)
    (batch : Batch N C H W) (bi oi : ℕ) :
    (trainingStep s batch bi oi).1.hparams = s.hparams := by
  unfold trainingStep
  by_cases h0 : oi = 0
  · rw [if_pos h0]
  · rw [if_neg h0]
    by_cases h1 : oi = 1
    · rw [if_pos h1]
      cases s.generated_image_only_patch with
      | none => rfl
      | some patch => rfl
    · rw [if_neg h1]

/-- No training-time operation changes `self.hparams`. -/
lemma applyOp_hparams {N H W M : ℕ} (s : ModelState N 3 H W M) (op : TrainOp N H W) :
    (applyOp s op).hparams = s.hparams := by
  cases op with
  | step b bi oi => exact trainingStep_hparams s b bi oi
  | epochEnd => rfl
  | configOpt => rfl

/-- Folding any operation sequence preserves `self.hparams`. -/
lemma foldl_applyOp_hparams {N H W M : ℕ} (ops : List (TrainOp N H W))
    (s : ModelState N 3 H W M) :
    (ops.foldl applyOp s).hparams = s.hparams := by
  induction ops generalizing s with
  | nil => rfl
  | cons op rest ih => rw [List.foldl_cons, ih, applyOp_hparams]

/-- C5: `self.hparams` is assigned exactly once, at construction, to the
record passed in, and after any sequence of `training_step` (either
optimizer index), `on_epoch_end` and `configure_optimizers` calls it
still equals that record. -/
theorem hparams_never_mutated {N H W M : ℕ} (args : HParams)
    (netG : Tensor N 3 H W → Tensor N 1 H W → Tensor N 3 H W × Tensor N 3 H W)
    (netD : Tensor N (3 + 1) H W → Fin M → ℚ) (loader : List (Batch N 3 H W))
    (ops : List (TrainOp N H W)) :
    ((DeepFillV2.init args netG netD loader).hparams = args)
    ∧ (∀ (s : ModelState N 3 H W M) (op : TrainOp N H W),
        (applyOp s op).hparams = s.hparams)
    ∧ (ops.foldl applyOp (DeepFillV2.init args netG netD loader)).hparams = args :=
  ⟨rfl, applyOp_hparams, foldl_applyOp_hparams ops (DeepFillV2.init args netG netD loader)⟩

/-- Counterexample to C6: at `lr = 1/10` the second configured Adam
optimizer (the discriminator's) has learning rate `2/5`, not the
CLI-provided `1/10`, so not every optimizer uses the CLI learning
rate. -/
theorem configure_optimizers_lr_counterexample :
    ¬ ∀ o ∈ (configureOptimizers exState).1, o.lr = exState.hparams.lr := by
  intro h
  have h2 := h { params := ParamSet.netD, lr := 4 * exState.hparams.lr,
                 weight_decay := exState.hparams.weight_decay } (by
    show _ ∈ [_, _]
    simp)
  rw [show exState.hparams.lr = 1/10 from rfl] at h2
  norm_num at h2

/-- C6 (amended): `configure_optimizers` returns exactly two Adam
optimizers and no scheduler: the first over the generator's parameters
with the CLI learning rate, the second over the discriminator's
parameters with four times the CLI learning rate; both use the CLI
weight decay. -/
theorem configure_optimizers_two_adams {N C H W M : ℕ} (s : ModelState N C H W M) :
    configureOptimizers s =
      ([{ params := ParamSet.netG, lr := s.hparams.lr,
          weight_decay := s.hparams.weight_decay },
        { params := ParamSet.netD, lr := 4 * s.hparams.lr,
          weight_decay := s.hparams.weight_decay }], []) := rfl

/-- C7: the reconstruction loss stored at construction carries the four
CLI weights `l1_c_h`, `l1_c_nh`, `l1_r_h`, `l1_r_nh`; it is the linear
combination of the four region L1 terms (coarse/hole, coarse/non-hole,
refined/hole, refined/non-hole); and changing any single weight changes
the loss by exactly that weight difference times its own region term,
so the four regions are weighted independently. -/
theorem recon_loss_four_independent_weights {N C H W M : ℕ} (args : HParams)
    (netG : Tensor N C H W → Tensor N 1 H W → Tensor N C H W × Tensor N C H W)
    (netD : Tensor N (C + 1) H W → Fin M → ℚ) (loader : List (Batch N C H W)) :
    ((DeepFillV2.init (M := M) args netG netD loader).recon_loss =
        reconstructionLoss args.l1_c_h args.l1_c_nh args.l1_r_h args.l1_r_nh)
    ∧ (∀ (w₁ w₂ w₃ w₄ : ℚ) (image coarse refined : Tensor N C H W)
          (mask : Tensor N 1 H W),
        reconstructionLoss w₁ w₂ w₃ w₄ image coarse refined mask =
          w₁ * maskedL1 coarse image mask
            + w₂ * maskedL1 coarse image (oneSub mask)
            + w₃ * maskedL1 refined image mask
            + w₄ * maskedL1 refined image (oneSub mask))
    ∧ (∀ (w₁ w₁' w₂ w₂' w₃ w₃' w₄ w₄' : ℚ) (image coarse refined : Tensor N C H W)
          (mask : Tensor N 1 H W),
        (reconstructionLoss w₁' w₂ w₃ w₄ image coarse refined mask
            - reconstructionLoss w₁ w₂ w₃ w₄ image coarse refined mask =
          (w₁' - w₁) * maskedL1 coarse image mask)
        ∧ (reconstructionLoss w₁ w₂' w₃ w₄ image coarse refined mask
            - reconstructionLoss w₁ w₂ w₃ w₄ image coarse refined mask =
          (w₂' - w₂) * maskedL1 coarse image (oneSub mask))
        ∧ (reconstructionLoss w₁ w₂ w₃' w₄ image coarse refined mask
            - reconstructionLoss w₁ w₂ w₃ w₄ image coarse refined mask =
          (w₃' - w₃) * maskedL1 refined image mask)
        ∧ (reconstructionLoss w₁ w₂ w₃ w₄' image coarse refined mask
            - reconstructionLoss w₁ w₂ w₃ w₄ image coarse refined mask =
          (w₄' - w₄) * maskedL1 refined image (oneSub mask))) := by
  refine ⟨rfl, fun _ _ _ _ _ _ _ _ => rfl, ?_⟩
  intro w₁ w₁' w₂ w₂' w₃ w₃' w₄ w₄' image coarse refined mask
  refine ⟨?_, ?_, ?_, ?_⟩ <;> (unfold reconstructionLoss; ring)

/-- C8: `on_epoch_end` logs exactly one image grid: the hstack of the
five vstacked columns in the order masked, coarse, refined, completed,
original; every tile is the HWC transpose denormalized with the
per-channel std `(0.229, 0.224, 0.225)` and mean `(0.485, 0.456,
0.406)`, scaled by `255` and cast to uint8; and at every pixel where
the mask is `1` the masked image holds the value `1`. -/
theorem epoch_end_visualization_grid {N H W M : ℕ} (s : ModelState N 3 H W M) :
    ((onEpochEnd s).2.length = 1)
    ∧ ((onEpochEnd s).2 =
        [[tilesOf (fun b => maskedImage b.image b.mask) s.visualization_dataloader,
          tilesOf (fun b => (s.net_G b.image b.mask).1) s.visualization_dataloader,
          tilesOf (fun b => (s.net_G b.image b.mask).2) s.visualization_dataloader,
          tilesOf (fun b => completedImage (s.net_G b.image b.mask).2 b.image b.mask)
            s.visualization_dataloader,
          tilesOf (fun b => b.image) s.visualization_dataloader]])
    ∧ (∀ (N' H' W' : ℕ) (img : Tensor N' 3 H' W') (j : Fin N') (h : Fin H')
          (w : Fin W') (c : Fin 3),
        denormTile img j h w c =
          npUint8 ((img j c h w * (![229/1000, 224/1000, 225/1000] : Fin 3 → ℚ) c
            + (![485/1000, 456/1000, 406/1000] : Fin 3 → ℚ) c) * 255))
    ∧ (∀ (image : Tensor N 3 H W) (mask : Tensor N 1 H W) (n : Fin N) (c : Fin 3)
          (h : Fin H) (w : Fin W),
        mask n 0 h w = 1 → maskedImage image mask n c h w = 1) := by
  refine ⟨rfl, rfl, fun _ _ _ _ _ _ _ _ => rfl, ?_⟩
  intro image mask n c h w hm
  simp [maskedImage, badd, bmul, oneSub, hm]

/-- Witness for C8 at the all-ones mask: the masked-column pixel value
before denormalization is `1`. -/
theorem epoch_end_visualization_grid_witness :
    maskedImage exImage exMask1 0 0 0 0 = 1 :=
  (epoch_end_visualization_grid exState).2.2.2 exImage exMask1 0 0 0 0 rfl
